import Mathlib

/-!
Shallow embedding of the authorization/token subsystem of the
mcp-cloudflare worker (src/oauth.ts and the auth gate of src/index.ts).

Cloudflare KV namespaces are modelled as association lists from string
keys to a value together with the expirationTtl (in seconds) passed on
the write.  Randomness (Math.random draws, crypto.getRandomValues bytes,
crypto.randomUUID results) and the current time (Date.now) are passed in
as explicit parameters.  Nullable strings (URL search parameters,
FormData fields, headers) are Option String, and the JavaScript truthy
test on such a value is jsFalsy below.
-/

set_option maxRecDepth 4000

/-- Record stored in the OAUTH_CODES namespace (interface OAuthSession of
src/types.ts; the optional field authorized is never written by this code
and is omitted).  Times are milliseconds since the epoch. -/
structure OAuthSession where
  code : String
  state : String
  codeChallenge : String
  codeVerifier : String
  createdAt : Nat
  expiresAt : Nat
  deriving Repr, DecidableEq

/-- Record stored in the ACCESS_TOKENS namespace (interface AccessToken of
src/types.ts). -/
structure AccessToken where
  token : String
  userId : String
  createdAt : Nat
  expiresAt : Nat
  deriving Repr, DecidableEq

/-- A KV namespace: list of entries key, value, expirationTtl in seconds
as passed to put.  The platform expiry itself is not modelled; reads see
the stored value. -/
abbrev KvStore (α : Type) : Type := List (String × α × Nat)

/-- KV get: the value stored under a key, if any. -/
def kvGet {α : Type} (st : KvStore α) (k : String) : Option α :=
  (st.find? (fun e => e.1 == k)).map (fun e => e.2.1)

/-- KV get returning the value together with the expirationTtl recorded on
the write that produced it. -/
def kvGetEntry {α : Type} (st : KvStore α) (k : String) : Option (α × Nat) :=
  (st.find? (fun e => e.1 == k)).map (fun e => e.2)

/-- KV put with an expirationTtl in seconds: replaces any entry under the
same key. -/
def kvPut {α : Type} (st : KvStore α) (k : String) (v : α) (ttlSeconds : Nat) : KvStore α :=
  (k, v, ttlSeconds) :: st.filter (fun e => !(e.1 == k))

/-- KV delete. -/
def kvDelete {α : Type} (st : KvStore α) (k : String) : KvStore α :=
  st.filter (fun e => !(e.1 == k))

/-- The two KV namespaces bound to the worker (env.OAUTH_CODES and
env.ACCESS_TOKENS). -/
structure Stores where
  oauthCodes : KvStore OAuthSession
  accessTokens : KvStore AccessToken
  deriving Repr, DecidableEq

/-- JavaScript falsiness of a nullable string: null and the empty string
are falsy, every other string is truthy. -/
def jsFalsy : Option String → Bool
  | none => true
  | some s => s == ""

/-- The character table used by generateWLVYCode. -/
def wlvyChars : String := "ABCDEFGHIJKLMNOPQRSTUVWXYZ0123456789"

/-- generateWLVYCode of src/oauth.ts: four draws of
Math.floor(Math.random() * 36) index into wlvyChars, and the result is
the prefix WLVY, a hyphen, and the four chosen characters.  The draws
are passed in as a list of indices. -/
def generateWLVYCode (draws : List Nat) : String :=
  "WLVY-" ++ String.mk (draws.map (fun i => wlvyChars.toList.getD i 'A'))

/-- The base64 alphabet used by btoa. -/
def b64Alphabet : String :=
  "ABCDEFGHIJKLMNOPQRSTUVWXYZabcdefghijklmnopqrstuvwxyz0123456789+/"

/-- Character of the base64 alphabet at an index (indices produced by
btoa are below 64 for byte inputs). -/
def b64Char (n : Nat) : Char := b64Alphabet.toList.getD n 'A'

/-- btoa on a byte sequence: groups of three bytes become four base64
characters; a final group of one or two bytes is padded with the pad
character. -/
def btoaChunks : List Nat → List Char
  | [] => []
  | [a] => [b64Char (a / 4), b64Char (a % 4 * 16), '=', '=']
  | [a, b] => [b64Char (a / 4), b64Char (a % 4 * 16 + b / 16), b64Char (b % 16 * 4), '=']
  | a :: b :: c :: rest =>
      b64Char (a / 4) :: b64Char (a % 4 * 16 + b / 16) ::
        b64Char (b % 16 * 4 + c / 64) :: b64Char (c % 64) :: btoaChunks rest

/-- The replace chain of src/oauth.ts applied to one base64 character:
plus becomes hyphen and slash becomes underscore. -/
def b64ToUrl (c : Char) : Char :=
  if c = '+' then '-' else if c = '/' then '_' else c

/-- btoa followed by the replace chain of src/oauth.ts: plus to hyphen,
slash to underscore, pad characters removed. -/
def base64urlNoPad (bytes : List Nat) : String :=
  String.mk (((btoaChunks bytes).map b64ToUrl).filter (fun ch => ch != '='))

/-- generateCodeVerifier of src/oauth.ts applied to the 32 bytes drawn by
crypto.getRandomValues: btoa of the byte string, then the replace
chain. -/
def generateCodeVerifier (randomBytes : List Nat) : String :=
  base64urlNoPad randomBytes

/-- In generateCodeChallenge of src/oauth.ts the call
crypto.subtle.digest is not awaited, so hash is a pending Promise; the
expression new Uint8Array(hash as any) constructs from an object that is
neither an ArrayBuffer nor array-like, which yields a zero-length array.
This definition records the byte sequence the btoa pipeline actually
receives. -/
def digestBytes (_verifier : String) : List Nat := []

/-- generateCodeChallenge of src/oauth.ts: btoa of the bytes obtained
from the digest expression, then the replace chain. -/
def generateCodeChallenge (verifier : String) : String :=
  base64urlNoPad (digestBytes verifier)

/-- Responses produced by the handlers, abstracted to their kind and the
data the claims are about.  Status codes: missingParams, invalidCode,
invalidState, invalidCodeText, codeNotFoundText and stateMismatchText
are 400; methodNotAllowed is 405; successPage is a 200 HTML page (with
the access token inlined in the page body when the field is some);
authRedirect and tokenRedirect are 302 redirects, the latter carrying
the access token as a query parameter on the caller-supplied target. -/
inductive HandlerResponse where
  | missingParams
  | invalidCode
  | invalidState
  | methodNotAllowed
  | invalidCodeText
  | codeNotFoundText
  | stateMismatchText
  | successPage (inlinedToken : Option String)
  | authRedirect (code state : String) (redirectUri : Option String)
  | tokenRedirect (target token : String)
  deriving Repr, DecidableEq

/-- mintToken: the AccessToken record built by handleCallback and
handleAuthSubmit before it is put into ACCESS_TOKENS, from the supplied
code, the fresh crypto.randomUUID value, and Date.now. -/
def mintToken (code freshToken : String) (now : Nat) : AccessToken :=
  { token := freshToken
    userId := "user_" ++ code
    createdAt := now
    expiresAt := now + 24 * 60 * 60 * 1000 }

/-- initiateOAuth of src/oauth.ts: reads redirect_uri and state from the
query (state falls back to a fresh UUID when absent or empty), generates
a WLVY code, a verifier and a challenge, stores the session under the
code with expirationTtl 300, and redirects to the auth page carrying
code, state and, when present, redirect_uri.  Returns the updated
OAUTH_CODES store, the session written, and the response. -/
def initiateOAuth (codes : KvStore OAuthSession) (redirectUri stateParam : Option String)
    (genUuid : String) (draws verifierBytes : List Nat) (now : Nat) :
    KvStore OAuthSession × OAuthSession × HandlerResponse :=
  let state := if jsFalsy stateParam then genUuid else stateParam.getD ""
  let code := generateWLVYCode draws
  let codeVerifier := generateCodeVerifier verifierBytes
  let codeChallenge := generateCodeChallenge codeVerifier
  let session : OAuthSession :=
    { code := code
      state := state
      codeChallenge := codeChallenge
      codeVerifier := codeVerifier
      createdAt := now
      expiresAt := now + 5 * 60 * 1000 }
  let codes2 := kvPut codes code session 300
  (codes2, session, .authRedirect code state redirectUri)

/-- handleCallback of src/oauth.ts: code and state come from the query
string; missing or empty values are rejected as missing parameters; an
unknown code is rejected; a stored state differing from the supplied
state is rejected; otherwise a token is minted and stored with
expirationTtl 86400, the session is deleted, and an HTML page inlining
the token is returned.  The fresh crypto.randomUUID value is passed in
as freshToken. -/
def handleCallback (st : Stores) (codeP stateP : Option String) (now : Nat)
    (freshToken : String) : HandlerResponse × Stores :=
  if jsFalsy codeP || jsFalsy stateP then (.missingParams, st)
  else
    let code := codeP.getD ""
    let state := stateP.getD ""
    match kvGet st.oauthCodes code with
    | none => (.invalidCode, st)
    | some session =>
      if session.state ≠ state then (.invalidState, st)
      else
        let tokenData := mintToken code freshToken now
        let tokens2 := kvPut st.accessTokens freshToken tokenData 86400
        let codes2 := kvDelete st.oauthCodes code
        (.successPage (some freshToken), { oauthCodes := codes2, accessTokens := tokens2 })

/-- The JavaScript String.prototype.startsWith test used on the posted
code: the characters of the second string are an initial segment of the
characters of the first. -/
def jsStartsWith (s p : String) : Bool :=
  p.toList.isPrefixOf s.toList

/-- handleAuthSubmit of src/oauth.ts: requires POST; code, state and
redirect_uri come from the posted form data; a missing or empty code, or
one without the WLVY hyphen prefix, is rejected before any store access;
an unknown code is rejected; a stored state differing from the supplied
nullable state is rejected (state presence is not checked separately);
otherwise a token is minted and stored with expirationTtl 86400, the
session is deleted, and the response redirects to the redirect target
with the token as a query parameter when the target is truthy, else is a
success page that does not inline the token. -/
def handleAuthSubmit (st : Stores) (method : String) (codeP stateP redirectP : Option String)
    (now : Nat) (freshToken : String) : HandlerResponse × Stores :=
  if method ≠ "POST" then (.methodNotAllowed, st)
  else if jsFalsy codeP || !(jsStartsWith (codeP.getD "") "WLVY-") then (.invalidCodeText, st)
  else
    let code := codeP.getD ""
    match kvGet st.oauthCodes code with
    | none => (.codeNotFoundText, st)
    | some session =>
      if stateP ≠ some session.state then (.stateMismatchText, st)
      else
        let tokenData := mintToken code freshToken now
        let tokens2 := kvPut st.accessTokens freshToken tokenData 86400
        let codes2 := kvDelete st.oauthCodes code
        if jsFalsy redirectP then
          (.successPage none, { oauthCodes := codes2, accessTokens := tokens2 })
        else
          (.tokenRedirect (redirectP.getD "") freshToken,
            { oauthCodes := codes2, accessTokens := tokens2 })

/-- validateToken of src/oauth.ts: looks the token up in ACCESS_TOKENS;
absent means invalid; present means valid exactly when expiresAt is
strictly greater than Date.now.  The function performs only the one get,
so the store is returned unchanged. -/
def validateToken (tokens : KvStore AccessToken) (token : String) (now : Nat) :
    Bool × KvStore AccessToken :=
  match kvGet tokens token with
  | none => (false, tokens)
  | some accessToken => (decide (now < accessToken.expiresAt), tokens)

/-- Auxiliary for jsSplitSpace: walks the characters accumulating the
current chunk in reverse. -/
def splitSpAux : List Char → List Char → List String
  | [], cur => [String.mk cur.reverse]
  | ch :: rest, cur =>
      if ch = ' ' then String.mk cur.reverse :: splitSpAux rest []
      else splitSpAux rest (ch :: cur)

/-- The JavaScript String.split with the single-space separator, as used
on the Authorization header: every maximal run between spaces becomes a
chunk, and adjacent or boundary spaces produce empty chunks. -/
def jsSplitSpace (s : String) : List String :=
  splitSpAux s.toList []

/-- extractToken of src/oauth.ts: a null or empty Authorization header
yields null; otherwise the header is split on spaces, and the second
part is returned exactly when there are exactly two parts and the first
is the case-sensitive string Bearer. -/
def extractToken (authHeader : Option String) : Option String :=
  match authHeader with
  | none => none
  | some h =>
    if h == "" then none
    else
      match jsSplitSpace h with
      | [p0, p1] => if p0 == "Bearer" then some p1 else none
      | _ => none

/-- Outcome of the protected-endpoint gate of src/index.ts for the mcp
and sse paths. -/
inductive McpGate where
  | unauthorizedMissing
  | unauthorizedInvalid
  | forwarded
  deriving Repr, DecidableEq

/-- HTTP status of each gate outcome: both unauthorized outcomes are 401
responses; forwarded means the request is passed to the durable object
and carries no status of its own. -/
def mcpGateStatus : McpGate → Option Nat
  | .forwarded => none
  | _ => some 401

/-- The auth gate of the fetch handler of src/index.ts for the mcp and
sse paths: extract the token; a null or falsy (empty) token is rejected
as missing without touching the token store; otherwise validateToken
decides between forwarding and the invalid-token rejection.  The second
component lists the keys looked up in ACCESS_TOKENS. -/
def mcpAuthGate (authHeader : Option String) (tokens : KvStore AccessToken) (now : Nat) :
    McpGate × List String :=
  match extractToken authHeader with
  | none => (.unauthorizedMissing, [])
  | some token =>
    if token == "" then (.unauthorizedMissing, [])
    else if (validateToken tokens token now).1 then (.forwarded, [token])
    else (.unauthorizedInvalid, [token])

/-- Classification of handler responses into the error taxonomy of the
specification: missing or malformed required fields, unknown or consumed
code, state mismatch, success, and anything else. -/
inductive RespClass where
  | badRequest
  | badCode
  | badState
  | ok
  | other
  deriving Repr, DecidableEq

/-- Maps each concrete response to its class in the taxonomy. -/
def respClass : HandlerResponse → RespClass
  | .missingParams => .badRequest
  | .invalidCodeText => .badRequest
  | .invalidCode => .badCode
  | .codeNotFoundText => .badCode
  | .invalidState => .badState
  | .stateMismatchText => .badState
  | .successPage _ => .ok
  | .authRedirect _ _ _ => .ok
  | .tokenRedirect _ _ => .ok
  | .methodNotAllowed => .other

/-- A response counts as a successful confirmation when it is a success
page or a token-carrying redirect. -/
def isSuccess (r : HandlerResponse) : Bool :=
  match r with
  | .successPage _ => true
  | .tokenRedirect _ _ => true
  | _ => false


/-- A put makes the value readable under its key. -/
theorem kvGet_put_self {α : Type} (st : KvStore α) (k : String) (v : α) (t : Nat) :
    kvGet (kvPut st k v t) k = some v := by
  simp [kvGet, kvPut]

/-- A put records the value together with the ttl of the write. -/
theorem kvGetEntry_put_self {α : Type} (st : KvStore α) (k : String) (v : α) (t : Nat) :
    kvGetEntry (kvPut st k v t) k = some (v, t) := by
  simp [kvGetEntry, kvPut]

/-- After a delete, a get of the same key finds nothing. -/
theorem kvGet_delete_self {α : Type} (st : KvStore α) (k : String) :
    kvGet (kvDelete st k) k = none := by
  simp [kvGet, kvDelete, List.find?_filter]

/-- C1: for every code whose session record is present in the session
store, a first successful confirmation with the matching state (through
either entry point) yields a token, stores it, and deletes the session;
a second confirmation attempt with the same code, through either entry
point, then fails with the invalid-code response because the session is
absent from the store. -/
theorem code_single_use (st : Stores) (c tok tok2 : String) (sess : OAuthSession)
    (now now2 : Nat) (rP : Option String)
    (hc : c ≠ "") (hw : jsStartsWith c "WLVY-" = true) (hs : sess.state ≠ "")
    (hget : kvGet st.oauthCodes c = some sess) :
    handleCallback st (some c) (some sess.state) now tok =
      (.successPage (some tok),
        { oauthCodes := kvDelete st.oauthCodes c
          accessTokens := kvPut st.accessTokens tok (mintToken c tok now) 86400 }) ∧
    handleAuthSubmit st "POST" (some c) (some sess.state) none now tok =
      (.successPage none,
        { oauthCodes := kvDelete st.oauthCodes c
          accessTokens := kvPut st.accessTokens tok (mintToken c tok now) 86400 }) ∧
    kvGet (kvPut st.accessTokens tok (mintToken c tok now) 86400) tok
      = some (mintToken c tok now) ∧
    kvGet (kvDelete st.oauthCodes c) c = none ∧
    (handleCallback
      { oauthCodes := kvDelete st.oauthCodes c
        accessTokens := kvPut st.accessTokens tok (mintToken c tok now) 86400 }
      (some c) (some sess.state) now2 tok2).1 = .invalidCode ∧
    (handleAuthSubmit
      { oauthCodes := kvDelete st.oauthCodes c
        accessTokens := kvPut st.accessTokens tok (mintToken c tok now) 86400 }
      "POST" (some c) (some sess.state) rP now2 tok2).1 = .codeNotFoundText := by
  have hcb : (c == "") = false := beq_eq_false_iff_ne.mpr hc
  have hsb : (sess.state == "") = false := beq_eq_false_iff_ne.mpr hs
  refine ⟨?_, ?_, kvGet_put_self .., kvGet_delete_self .., ?_, ?_⟩
  · simp [handleCallback, jsFalsy, hcb, hsb, hget]
  · simp [handleAuthSubmit, jsFalsy, hcb, hw, hget]
  · simp [handleCallback, jsFalsy, hcb, hsb, kvGet_delete_self]
  · simp [handleAuthSubmit, jsFalsy, hcb, hw, kvGet_delete_self]

/-- Witness for C1: after the session for WLVY-AB12 is consumed, a
repeat callback confirmation fails with the invalid-code response. -/
theorem code_single_use_witness :
    (handleCallback
      { oauthCodes := kvDelete [("WLVY-AB12",
          { code := "WLVY-AB12", state := "s1", codeChallenge := "", codeVerifier := "",
            createdAt := 0, expiresAt := 300000 }, 300)] "WLVY-AB12"
        accessTokens := kvPut [] "tokA" (mintToken "WLVY-AB12" "tokA" 7) 86400 }
      (some "WLVY-AB12") (some "s1") 9 "tokB").1 = .invalidCode :=
  (code_single_use
    { oauthCodes := [("WLVY-AB12",
        { code := "WLVY-AB12", state := "s1", codeChallenge := "", codeVerifier := "",
          createdAt := 0, expiresAt := 300000 }, 300)]
      accessTokens := [] }
    "WLVY-AB12" "tokA" "tokB"
    { code := "WLVY-AB12", state := "s1", codeChallenge := "", codeVerifier := "",
      createdAt := 0, expiresAt := 300000 }
    7 9 none (by decide) (by decide) (by decide) (by decide)).2.2.2.2.1

/-- C3: when the session exists for the supplied code but the supplied
state differs from the stored one, both entry points fail with the
state-mismatch response, the stores are returned exactly unchanged (no
token is created and the session is not deleted or modified), and a
subsequent confirmation with the correct state still succeeds. -/
theorem state_mismatch_atomic (st : Stores) (c s tok tok2 : String) (sess : OAuthSession)
    (now now2 : Nat) (rP : Option String)
    (hc : c ≠ "") (hw : jsStartsWith c "WLVY-" = true) (hs2 : s ≠ "")
    (hneq : s ≠ sess.state) (hss : sess.state ≠ "")
    (hget : kvGet st.oauthCodes c = some sess) :
    handleCallback st (some c) (some s) now tok = (.invalidState, st) ∧
    handleAuthSubmit st "POST" (some c) (some s) rP now tok = (.stateMismatchText, st) ∧
    isSuccess (handleCallback st (some c) (some sess.state) now2 tok2).1 = true ∧
    isSuccess (handleAuthSubmit st "POST" (some c) (some sess.state) rP now2 tok2).1 = true := by
  have hcb : (c == "") = false := beq_eq_false_iff_ne.mpr hc
  have hsb2 : (s == "") = false := beq_eq_false_iff_ne.mpr hs2
  have hssb : (sess.state == "") = false := beq_eq_false_iff_ne.mpr hss
  refine ⟨?_, ?_, ?_, ?_⟩
  · simp [handleCallback, jsFalsy, hcb, hsb2, hget, Ne.symm hneq]
  · simp [handleAuthSubmit, jsFalsy, hcb, hw, hget, hneq]
  · simp [handleCallback, jsFalsy, hcb, hssb, hget, isSuccess]
  · rcases rP with _ | r
    · simp [handleAuthSubmit, jsFalsy, hcb, hw, hget, isSuccess]
    · by_cases hr : r = ""
      · simp [handleAuthSubmit, jsFalsy, hcb, hw, hget, isSuccess, hr]
      · simp [handleAuthSubmit, jsFalsy, hcb, hw, hget, isSuccess,
          beq_eq_false_iff_ne.mpr hr]

/-- Witness for C3: a mismatched state s2 against stored state s1 fails
with the invalid-state response and leaves the stores unchanged. -/
theorem state_mismatch_atomic_witness :
    handleCallback
      { oauthCodes := [("WLVY-AB12",
          { code := "WLVY-AB12", state := "s1", codeChallenge := "", codeVerifier := "",
            createdAt := 0, expiresAt := 300000 }, 300)]
        accessTokens := [] }
      (some "WLVY-AB12") (some "s2") 7 "tokA" =
      (.invalidState,
        { oauthCodes := [("WLVY-AB12",
            { code := "WLVY-AB12", state := "s1", codeChallenge := "", codeVerifier := "",
              createdAt := 0, expiresAt := 300000 }, 300)]
          accessTokens := [] }) :=
  (state_mismatch_atomic
    { oauthCodes := [("WLVY-AB12",
        { code := "WLVY-AB12", state := "s1", codeChallenge := "", codeVerifier := "",
          createdAt := 0, expiresAt := 300000 }, 300)]
      accessTokens := [] }
    "WLVY-AB12" "s2" "tokA" "tokB"
    { code := "WLVY-AB12", state := "s1", codeChallenge := "", codeVerifier := "",
      createdAt := 0, expiresAt := 300000 }
    7 9 none (by decide) (by decide) (by decide) (by decide) (by decide) (by decide)).1

/-- C2 counterexample: with a stored session for WLVY-ABCD (state s1)
and a request supplying the code but no state, the callback entry point
classifies the request as missing parameters while the form entry point
proceeds to the store and classifies it as a state mismatch, so the two
entry points do not classify the same input alike. -/
theorem entry_points_diverge :
    (handleCallback
      { oauthCodes := [("WLVY-ABCD",
          { code := "WLVY-ABCD", state := "s1", codeChallenge := "", codeVerifier := "",
            createdAt := 0, expiresAt := 300000 }, 300)]
        accessTokens := [] }
      (some "WLVY-ABCD") none 0 "tok0").1 = .missingParams ∧
    (handleAuthSubmit
      { oauthCodes := [("WLVY-ABCD",
          { code := "WLVY-ABCD", state := "s1", codeChallenge := "", codeVerifier := "",
            createdAt := 0, expiresAt := 300000 }, 300)]
        accessTokens := [] }
      "POST" (some "WLVY-ABCD") none none 0 "tok0").1 = .stateMismatchText ∧
    respClass .missingParams ≠ respClass .stateMismatchText := by
  refine ⟨by decide, by decide, by decide⟩

/-- C2 amended: for every POST request in which code and state are both
present and non-empty and the code bears the WLVY hyphen prefix, the two
confirmation entry points classify the input identically (unknown code,
state mismatch, or success) and leave the stores in identical states. -/
theorem entry_points_agree (st : Stores) (c s : String) (rP : Option String)
    (now : Nat) (tok : String)
    (hc : c ≠ "") (hw : jsStartsWith c "WLVY-" = true) (hs : s ≠ "") :
    respClass (handleCallback st (some c) (some s) now tok).1 =
      respClass (handleAuthSubmit st "POST" (some c) (some s) rP now tok).1 ∧
    (handleCallback st (some c) (some s) now tok).2 =
      (handleAuthSubmit st "POST" (some c) (some s) rP now tok).2 := by
  have hcb : (c == "") = false := beq_eq_false_iff_ne.mpr hc
  have hsb : (s == "") = false := beq_eq_false_iff_ne.mpr hs
  rcases hg : kvGet st.oauthCodes c with _ | sess
  · constructor <;> simp [handleCallback, handleAuthSubmit, jsFalsy, hcb, hsb, hw, hg, respClass]
  · by_cases hst : sess.state = s
    · rcases rP with _ | r
      · constructor <;>
          simp [handleCallback, handleAuthSubmit, jsFalsy, hcb, hsb, hw, hg, hst, respClass]
      · by_cases hr : r = ""
        · constructor <;>
            simp [handleCallback, handleAuthSubmit, jsFalsy, hcb, hsb, hw, hg, hst, hr, respClass]
        · constructor <;>
            simp [handleCallback, handleAuthSubmit, jsFalsy, hcb, hsb, hw, hg, hst, respClass,
              beq_eq_false_iff_ne.mpr hr]
    · have hst2 : ¬ s = sess.state := fun h => hst h.symm
      constructor <;>
        simp [handleCallback, handleAuthSubmit, jsFalsy, hcb, hsb, hw, hg, respClass, hst, hst2]

/-- Witness for the amended C2 on a concrete store and matching state. -/
theorem entry_points_agree_witness :
    respClass (handleCallback
      { oauthCodes := [("WLVY-AB12",
          { code := "WLVY-AB12", state := "s1", codeChallenge := "", codeVerifier := "",
            createdAt := 0, expiresAt := 300000 }, 300)]
        accessTokens := [] }
      (some "WLVY-AB12") (some "s1") 7 "tokA").1 =
      respClass (handleAuthSubmit
        { oauthCodes := [("WLVY-AB12",
            { code := "WLVY-AB12", state := "s1", codeChallenge := "", codeVerifier := "",
              createdAt := 0, expiresAt := 300000 }, 300)]
          accessTokens := [] }
        "POST" (some "WLVY-AB12") (some "s1") none 7 "tokA").1 :=
  (entry_points_agree
    { oauthCodes := [("WLVY-AB12",
        { code := "WLVY-AB12", state := "s1", codeChallenge := "", codeVerifier := "",
          createdAt := 0, expiresAt := 300000 }, 300)]
      accessTokens := [] }
    "WLVY-AB12" "s1" none 7 "tokA" (by decide) (by decide) (by decide)).1

/-- C7 counterexample: a successful form confirmation with no redirect
target renders the completion page without the minted token, which is
neither a page inlining the token nor a redirect. -/
theorem success_shape_counterexample :
    (handleAuthSubmit
      { oauthCodes := [("WLVY-ABCD",
          { code := "WLVY-ABCD", state := "s1", codeChallenge := "", codeVerifier := "",
            createdAt := 0, expiresAt := 300000 }, 300)]
        accessTokens := [] }
      "POST" (some "WLVY-ABCD") (some "s1") none 0 "tok0").1 = .successPage none ∧
    HandlerResponse.successPage none ≠ .successPage (some "tok0") := by
  refine ⟨by decide, by decide⟩

/-- C7 amended: on success the callback entry point always renders the
page inlining the minted token (it never redirects), while the form
entry point redirects to the caller-supplied target with the token as a
query parameter exactly when a non-empty target was posted, and
otherwise renders a completion page that does not inline the token. -/
theorem success_shape (st : Stores) (c tok : String) (sess : OAuthSession)
    (now : Nat) (rP : Option String)
    (hc : c ≠ "") (hw : jsStartsWith c "WLVY-" = true) (hs : sess.state ≠ "")
    (hget : kvGet st.oauthCodes c = some sess) :
    (handleCallback st (some c) (some sess.state) now tok).1 = .successPage (some tok) ∧
    (jsFalsy rP = true →
      (handleAuthSubmit st "POST" (some c) (some sess.state) rP now tok).1 = .successPage none) ∧
    (jsFalsy rP = false →
      (handleAuthSubmit st "POST" (some c) (some sess.state) rP now tok).1 =
        .tokenRedirect (rP.getD "") tok) := by
  have hcb : (c == "") = false := beq_eq_false_iff_ne.mpr hc
  have hsb : (sess.state == "") = false := beq_eq_false_iff_ne.mpr hs
  refine ⟨by simp [handleCallback, jsFalsy, hcb, hsb, hget], ?_, ?_⟩
  · intro hrp
    rcases rP with _ | r
    · simp [handleAuthSubmit, jsFalsy, hcb, hw, hget]
    · simp only [jsFalsy, beq_iff_eq] at hrp
      simp [handleAuthSubmit, jsFalsy, hcb, hw, hget, hrp]
  · intro hrp
    rcases rP with _ | r
    · simp [jsFalsy] at hrp
    · rw [jsFalsy, beq_eq_false_iff_ne] at hrp
      simp [handleAuthSubmit, jsFalsy, hcb, hw, hget, hrp]

/-- Witness for the amended C7: with a posted redirect target the form
entry point responds with the token-carrying redirect. -/
theorem success_shape_witness :
    (handleAuthSubmit
      { oauthCodes := [("WLVY-AB12",
          { code := "WLVY-AB12", state := "s1", codeChallenge := "", codeVerifier := "",
            createdAt := 0, expiresAt := 300000 }, 300)]
        accessTokens := [] }
      "POST" (some "WLVY-AB12") (some "s1") (some "https://cb.example/done") 7 "tokA").1 =
      .tokenRedirect "https://cb.example/done" "tokA" :=
  (success_shape
    { oauthCodes := [("WLVY-AB12",
        { code := "WLVY-AB12", state := "s1", codeChallenge := "", codeVerifier := "",
          createdAt := 0, expiresAt := 300000 }, 300)]
      accessTokens := [] }
    "WLVY-AB12" "tokA"
    { code := "WLVY-AB12", state := "s1", codeChallenge := "", codeVerifier := "",
      createdAt := 0, expiresAt := 300000 }
    7 (some "https://cb.example/done")
    (by decide) (by decide) (by decide) (by decide)).2.2 (by decide)

/-- C4: validateToken returns false when no record is stored under the
token; when a record is stored it returns true exactly when its
expiresAt is strictly greater than the current time; it never writes to
any store; and for a freshly minted record it is valid from the issue
instant up to but not including the expiry instant, 86400000
milliseconds later, and invalid from then on. -/
theorem token_validation (tokens : KvStore AccessToken) (tok : String) (now : Nat) :
    (kvGet tokens tok = none → (validateToken tokens tok now).1 = false) ∧
    (∀ td : AccessToken, kvGet tokens tok = some td →
      ((validateToken tokens tok now).1 = true ↔ now < td.expiresAt)) ∧
    (validateToken tokens tok now).2 = tokens ∧
    (∀ (c : String) (issuedAt t : Nat),
      ((validateToken (kvPut tokens tok (mintToken c tok issuedAt) 86400) tok t).1 = true
        ↔ t < issuedAt + 86400000)) := by
  refine ⟨?_, ?_, ?_, ?_⟩
  · intro h
    simp [validateToken, h]
  · intro td h
    simp [validateToken, h]
  · rcases h : kvGet tokens tok with _ | td <;> simp [validateToken, h]
  · intro c issuedAt t
    norm_num [validateToken, kvGet_put_self, mintToken]

/-- Witness for C4: a stored record with a concrete expiry decides
validity by the strict comparison with the current time. -/
theorem token_validation_witness :
    (validateToken [("t0", mintToken "WLVY-AB12" "t0" 5, 86400)] "t0" 10).1 = true
      ↔ 10 < (mintToken "WLVY-AB12" "t0" 5).expiresAt :=
  (token_validation [("t0", mintToken "WLVY-AB12" "t0" 5, 86400)] "t0" 10).2.1
    (mintToken "WLVY-AB12" "t0" 5) (by decide)

/-- C6: extractToken returns a token exactly when the header is present
and splits on spaces into exactly two parts whose first is the
case-sensitive string Bearer, in which case the token is the second
part; the four behaviours enumerated by the specification follow. -/
theorem token_extraction :
    (∀ (h : Option String) (t : String),
      extractToken h = some t ↔ ∃ s, h = some s ∧ jsSplitSpace s = ["Bearer", t]) ∧
    extractToken (some "Bearer abc123") = some "abc123" ∧
    extractToken (some "Basic abc123") = none ∧
    extractToken none = none ∧
    extractToken (some "Bearer") = none := by
  refine ⟨?_, by decide, by decide, by decide, by decide⟩
  intro h t
  constructor
  · intro he
    rcases h with _ | s
    · simp [extractToken] at he
    · refine ⟨s, rfl, ?_⟩
      by_cases hs : s = ""
      · rw [hs] at he
        simp [extractToken] at he
      · have hsb : (s == "") = false := beq_eq_false_iff_ne.mpr hs
        simp only [extractToken, hsb, Bool.false_eq_true, if_false] at he
        rcases hp : jsSplitSpace s with _ | ⟨p0, _ | ⟨p1, _ | ⟨p2, rest⟩⟩⟩ <;>
          rw [hp] at he <;> simp at he
        rw [he.1, he.2]
  · rintro ⟨s, rfl, hsp⟩
    have hs : s ≠ "" := by
      intro h0
      rw [h0] at hsp
      rw [show jsSplitSpace "" = [""] from rfl] at hsp
      have h1 : ("" : String) = "Bearer" := congrArg (fun l => l.headD "x") hsp
      exact absurd h1 (by decide)
    have hsb : (s == "") = false := beq_eq_false_iff_ne.mpr hs
    simp [extractToken, hsb, hsp]

/-- Witness for C6: the characterization applied to a concrete header. -/
theorem token_extraction_witness :
    extractToken (some "Bearer xyz") = some "xyz" :=
  ((token_extraction).1 (some "Bearer xyz") "xyz").mpr ⟨"Bearer xyz", rfl, by decide⟩

/-- C10: a header consisting of Bearer, one space and nothing else makes
extractToken return the empty string rather than null, and the gate of
src/index.ts treats the empty string as falsy, answering 401 without any
lookup in the token store. -/
theorem empty_bearer_unauthenticated :
    extractToken (some "Bearer ") = some "" ∧
    (∀ (tokens : KvStore AccessToken) (now : Nat),
      mcpAuthGate (some "Bearer ") tokens now = (.unauthorizedMissing, [])) ∧
    mcpGateStatus .unauthorizedMissing = some 401 := by
  refine ⟨by decide, fun tokens now => rfl, rfl⟩

/-- Every indexed read of the WLVY character table lands in the table
(out-of-range indices yield the default, itself a table character). -/
theorem wlvyChars_getD_mem (i : Nat) : wlvyChars.toList.getD i 'A' ∈ wlvyChars.toList := by
  by_cases h : i < wlvyChars.toList.length
  · have hall : ∀ j, j < wlvyChars.toList.length →
        wlvyChars.toList.getD j 'A' ∈ wlvyChars.toList := by decide
    exact hall i h
  · rw [List.getD_eq_default _ _ (Nat.le_of_not_lt h)]
    decide

/-- C9: every code produced by generateWLVYCode is the prefix WLVY, a
hyphen, and exactly four characters drawn from the 36-symbol
uppercase-alphanumeric table; the whole code has nine characters. -/
theorem wlvy_code_format (draws : List Nat) (hlen : draws.length = 4)
    (_hlt : ∀ d ∈ draws, d < 36) :
    (generateWLVYCode draws).toList
      = ['W', 'L', 'V', 'Y', '-'] ++ draws.map (fun i => wlvyChars.toList.getD i 'A') ∧
    (generateWLVYCode draws).length = 9 ∧
    (∀ ch ∈ draws.map (fun i => wlvyChars.toList.getD i 'A'), ch ∈ wlvyChars.toList) ∧
    (draws.map (fun i => wlvyChars.toList.getD i 'A')).length = 4 := by
  refine ⟨?_, ?_, ?_, by simp [hlen]⟩
  · simp [generateWLVYCode, String.toList]
  · rw [generateWLVYCode, String.length_append]
    simp [hlen]
    rfl
  · intro ch hch
    rcases List.mem_map.mp hch with ⟨i, hi, rfl⟩
    exact wlvyChars_getD_mem i

/-- Witness for C9 at the draws 0, 1, 25, 35. -/
theorem wlvy_code_format_witness :
    (generateWLVYCode [0, 1, 25, 35]).length = 9 :=
  (wlvy_code_format [0, 1, 25, 35] (by decide) (by decide)).2.1

/-- C8: the session written by initiateOAuth has expiresAt equal to
createdAt plus 300000 milliseconds and is stored with ttl 300 seconds,
and 300 seconds is exactly 300000 milliseconds; the token record minted
by either confirmation entry point has expiresAt equal to createdAt plus
86400000 milliseconds and is stored with ttl 86400 seconds, which is
exactly 86400000 milliseconds, so each pair of expiry mechanisms
describes the same horizon. -/
theorem expiry_consistency (codes : KvStore OAuthSession) (ru sp : Option String)
    (uuid : String) (draws vbytes : List Nat) (now : Nat)
    (st : Stores) (c tok : String) (sess : OAuthSession) (now2 : Nat)
    (hc : c ≠ "") (hw : jsStartsWith c "WLVY-" = true) (hs : sess.state ≠ "")
    (hget : kvGet st.oauthCodes c = some sess) :
    (initiateOAuth codes ru sp uuid draws vbytes now).2.1.expiresAt
      = (initiateOAuth codes ru sp uuid draws vbytes now).2.1.createdAt + 300000 ∧
    kvGetEntry (initiateOAuth codes ru sp uuid draws vbytes now).1 (generateWLVYCode draws)
      = some ((initiateOAuth codes ru sp uuid draws vbytes now).2.1, 300) ∧
    300 * 1000 = 300000 ∧
    (mintToken c tok now2).expiresAt = (mintToken c tok now2).createdAt + 86400000 ∧
    kvGetEntry (handleCallback st (some c) (some sess.state) now2 tok).2.accessTokens tok
      = some (mintToken c tok now2, 86400) ∧
    kvGetEntry
        (handleAuthSubmit st "POST" (some c) (some sess.state) none now2 tok).2.accessTokens tok
      = some (mintToken c tok now2, 86400) ∧
    86400 * 1000 = 86400000 := by
  have hcb : (c == "") = false := beq_eq_false_iff_ne.mpr hc
  have hsb : (sess.state == "") = false := beq_eq_false_iff_ne.mpr hs
  refine ⟨?_, ?_, by norm_num, ?_, ?_, ?_, by norm_num⟩
  · norm_num [initiateOAuth]
  · simp [initiateOAuth, kvGetEntry_put_self]
  · norm_num [mintToken]
  · simp [handleCallback, jsFalsy, hcb, hsb, hget, kvGetEntry_put_self]
  · simp [handleAuthSubmit, jsFalsy, hcb, hw, hget, kvGetEntry_put_self]

/-- Witness for C8: the minted token record written on a concrete
successful callback confirmation carries ttl 86400 seconds. -/
theorem expiry_consistency_witness :
    kvGetEntry (handleCallback
      { oauthCodes := [("WLVY-AB12",
          { code := "WLVY-AB12", state := "s1", codeChallenge := "", codeVerifier := "",
            createdAt := 0, expiresAt := 300000 }, 300)]
        accessTokens := [] }
      (some "WLVY-AB12") (some "s1") 7 "tokA").2.accessTokens "tokA"
      = some (mintToken "WLVY-AB12" "tokA" 7, 86400) :=
  (expiry_consistency [] none none "u" [] [] 0
    { oauthCodes := [("WLVY-AB12",
        { code := "WLVY-AB12", state := "s1", codeChallenge := "", codeVerifier := "",
          createdAt := 0, expiresAt := 300000 }, 300)]
      accessTokens := [] }
    "WLVY-AB12" "tokA"
    { code := "WLVY-AB12", state := "s1", codeChallenge := "", codeVerifier := "",
      createdAt := 0, expiresAt := 300000 }
    7 (by decide) (by decide) (by decide) (by decide)).2.2.2.2.1

/-- The base64 alphabet never produces the pad character. -/
theorem b64Char_ne_pad (n : Nat) : b64Char n ≠ '=' := by
  by_cases h : n < b64Alphabet.toList.length
  · have hall : ∀ j, j < b64Alphabet.toList.length →
        b64Alphabet.toList.getD j 'A' ≠ '=' := by decide
    exact hall n h
  · rw [b64Char, List.getD_eq_default _ _ (Nat.le_of_not_lt h)]
    decide

/-- The replace chain maps non-pad characters to non-pad characters. -/
theorem b64ToUrl_ne_pad (c : Char) (h : c ≠ '=') : b64ToUrl c ≠ '=' := by
  unfold b64ToUrl
  split
  · decide
  · split
    · decide
    · exact h

/-- Length of the unpadded base64url encoding of a byte sequence whose
length is 2 modulo 3: each full 3-byte group contributes four characters
and the final 2-byte group contributes three. -/
theorem base64url_len_aux (n : Nat) : ∀ bs : List Nat, bs.length = 3 * n + 2 →
    (((btoaChunks bs).map b64ToUrl).filter (fun ch => ch != '=')).length = 4 * n + 3 := by
  have h1 : ∀ m : Nat, (b64ToUrl (b64Char m) != '=') = true :=
    fun m => bne_iff_ne.mpr (b64ToUrl_ne_pad _ (b64Char_ne_pad m))
  have h2 : (b64ToUrl '=' != '=') = false := by decide
  induction n with
  | zero =>
    intro bs hlen
    rcases bs with _ | ⟨a, _ | ⟨b, _ | ⟨c, rest⟩⟩⟩
    · simp at hlen
    · simp at hlen
    · simp [btoaChunks, List.filter_cons, h1, h2]
    · simp at hlen
  | succ n ih =>
    intro bs hlen
    rcases bs with _ | ⟨a, _ | ⟨b, _ | ⟨c, rest⟩⟩⟩
    · simp at hlen
    · simp at hlen
    · simp at hlen
    · have hrest : rest.length = 3 * n + 2 := by
        simp at hlen
        omega
      simp only [btoaChunks, List.map_cons, List.filter_cons, h1, if_true, List.length_cons]
      rw [ih rest hrest]
      ring

/-- C5: because the digest Promise is never awaited, generateCodeChallenge
returns the empty string for every verifier, including every verifier
produced by generateCodeVerifier from 32 random bytes; the base64url
encoding without padding of any 32-byte SHA-256 digest has 43
characters, so the returned challenge is never that encoding. -/
theorem challenge_always_empty (verifierBytes : List Nat) :
    generateCodeChallenge (generateCodeVerifier verifierBytes) = "" ∧
    ∀ digest : List Nat, digest.length = 32 →
      (base64urlNoPad digest).length = 43 ∧
      base64urlNoPad digest ≠ generateCodeChallenge (generateCodeVerifier verifierBytes) := by
  have hc0 : generateCodeChallenge (generateCodeVerifier verifierBytes) = "" := rfl
  refine ⟨hc0, ?_⟩
  intro digest hlen
  have h43 : (base64urlNoPad digest).length = 43 := by
    have hx := base64url_len_aux 10 digest (by omega)
    simpa [base64urlNoPad, String.length] using hx
  refine ⟨h43, ?_⟩
  intro heq
  rw [heq, hc0] at h43
  simp at h43

/-- Witness for C5 at the all-zero 32-byte digest and verifier bytes. -/
theorem challenge_always_empty_witness :
    (base64urlNoPad (List.replicate 32 0)).length = 43 ∧
    base64urlNoPad (List.replicate 32 0)
      ≠ generateCodeChallenge (generateCodeVerifier (List.replicate 32 0)) :=
  (challenge_always_empty (List.replicate 32 0)).2 (List.replicate 32 0) (by decide)
